import Mathlib

/-!
Verification of the AntennaTracker tracking core
(src/AntennaTracker/tracking.cpp), shallowly embedded in Lean 4.

Numeric modelling: the C code computes in 32-bit floats over locations whose
coordinates are integers scaled at the wire boundary.  The `Location` struct
and the geometry library helpers (location_update, get_bearing_cd,
get_distance, pythagorous2, atan2f, degrees, get_altitude_difference) are
library code that is not part of src/, so they are modelled from the spec:
coordinates and all derived quantities are exact rationals, and the
irrational geometry primitives are abstracted into a `GeoEnv` record of
rational-valued functions.  Clocks are modelled as natural numbers
(microseconds and milliseconds); the code reads monotone hardware clocks and
no claim concerns 32-bit wrap-around, so wrap is not modelled.
-/

/-- Modelled from the spec: the Location struct (AP_Common, outside src/).
The spec data model treats a location as a latitude / longitude / altitude
triple; coordinates are exact rationals (lat and lng in the scaled integer
units of the wire format, alt in centimeters). -/
structure Location where
  lat : ℚ
  lng : ℚ
  alt : ℚ
deriving DecidableEq

/-- The control-mode enumeration of the tracker. -/
inductive ControlMode where
  | AUTO
  | MANUAL
  | SCAN
  | SERVO_TEST
  | STOP
  | INITIALISING
deriving DecidableEq

/-- Vehicle state owned by the vehicle state estimator:
last-known location, heading (degrees), ground speed (m/s), the extrapolated
location estimate, the validity flag, and the two last-update timestamps. -/
structure VehicleState where
  location : Location
  heading : ℚ
  ground_speed : ℚ
  location_estimate : Location
  location_valid : Bool
  last_update_us : ℕ
  last_update_ms : ℕ
deriving DecidableEq

/-- The navigation status record written by the calculator, the altitude
fusion and the manual-control handler. -/
structure NavStatus where
  bearing : ℚ
  distance : ℚ
  pitch : ℚ
  altitude_difference : ℚ
  altitude_offset : ℚ
  manual_control_yaw : Bool
  manual_control_pitch : Bool
  need_altitude_calibration : Bool
deriving DecidableEq

/-- A GPS driver reading: fix quality status and the raw fix location. -/
structure GpsFix where
  status : ℕ
  location : Location
deriving DecidableEq

/-- Configuration parameters read by the core (the `g` object):
startup delay in seconds, altitude-source selector, pitch trim. -/
structure Config where
  startup_delay : ℚ
  alt_source : ℤ
  pitch_trim : ℚ
deriving DecidableEq

/-- Abstract geometry / numerics environment.  These stand for the irrational
library primitives used by tracking.cpp but defined outside src/: the trig
factors inside location_update, get_bearing_cd, get_distance, atan2f, the
radians-to-degrees conversion, the barometric differential-altitude function
(None models a NaN result), and pythagorous2. -/
structure GeoEnv where
  cosd : ℚ → ℚ
  sind : ℚ → ℚ
  get_bearing_cd : Location → Location → ℚ
  get_distance : Location → Location → ℚ
  atan2 : ℚ → ℚ → ℚ
  degrees_of : ℚ → ℚ
  get_altitude_difference : ℚ → ℚ → Option ℚ
  hypot : ℚ → ℚ → ℚ

/-- The full tracker state touched by tracking.cpp: vehicle estimator state,
the two smoothed tracker locations, the navigation status, the control mode,
the process start time, and the file-global `delay_timer` used by
update_initialising. -/
structure TrackerState where
  vehicle : VehicleState
  current_loc : Location
  old_loc : Location
  nav_status : NavStatus
  control_mode : ControlMode
  start_time_ms : ℕ
  delay_timer : ℕ
deriving DecidableEq

/-- TRACKING_TIMEOUT_SEC: the lost-vehicle timeout in seconds. -/
def TRACKING_TIMEOUT_SEC : ℚ := 5

/-- AP_GPS::GPS_OK_FIX_2D fix-quality threshold. -/
def GPS_OK_FIX_2D : ℕ := 2

/-- Elapsed seconds between a now-microsecond clock reading and a stored
last-update microsecond timestamp, as computed by
`(micros() - last_update_us) * 1.0e-6f`. -/
def elapsed_sec (now_us last_us : ℕ) : ℚ :=
  ((now_us - last_us : ℕ) : ℚ) * (1 / 1000000)

/-- Modelled from the spec: the library function location_update (AP_Math,
outside src/), which advances a surface location along a compass bearing by a
ground distance (dead reckoning); the trig factors are abstracted in GeoEnv.
Altitude is unchanged. -/
def location_update (env : GeoEnv) (loc : Location) (bearing distance : ℚ) :
    Location :=
  { lat := loc.lat + env.cosd bearing * distance
  , lng := loc.lng + env.sind bearing * distance
  , alt := loc.alt }

/-- Tracker::update_vehicle_pos_estimate: if less than TRACKING_TIMEOUT_SEC
since the last position update, project the last-known position along the
heading by ground_speed * dt and mark the estimate valid; otherwise mark the
vehicle lost, leaving the stale estimate in place. -/
def update_vehicle_pos_estimate (env : GeoEnv) (now_us : ℕ)
    (v : VehicleState) : VehicleState :=
  let dt := elapsed_sec now_us v.last_update_us
  if dt < TRACKING_TIMEOUT_SEC then
    { v with
        location_estimate :=
          location_update env v.location v.heading (v.ground_speed * dt)
      , location_valid := true }
  else
    { v with location_valid := false }

/-- Tracker::update_tracker_position: with at least a 2D fix, read the raw
fix; if the previous smoothed location is the zero sentinel, snap it to the
raw fix; blend each axis as 0.95 * old + 0.05 * raw; store the result as both
the current and the previous smoothed location.  Returns
(current_loc, old_loc). -/
def update_tracker_position (fix : GpsFix) (current_loc old_loc : Location) :
    Location × Location :=
  if GPS_OK_FIX_2D ≤ fix.status then
    let current1 := fix.location
    let old1 :=
      if old_loc.alt = 0 ∧ old_loc.lat = 0 ∧ old_loc.lng = 0 then
        fix.location
      else old_loc
    let current2 : Location :=
      { alt := (95 / 100 : ℚ) * old1.alt + (5 / 100 : ℚ) * current1.alt
      , lat := (95 / 100 : ℚ) * old1.lat + (5 / 100 : ℚ) * current1.lat
      , lng := (95 / 100 : ℚ) * old1.lng + (5 / 100 : ℚ) * current1.lng }
    (current2, current2)
  else
    (current_loc, old_loc)

/-- Tracker::update_bearing_and_distance: exit at once when the vehicle
position is invalid or the mode is SERVO_TEST; otherwise write the bearing
(in degrees, from centidegrees) unless in SCAN or under manual yaw override,
always write the distance, and write the pitch
(degrees of atan2(altitude difference, distance)) unless in SCAN or under
manual pitch override. -/
def update_bearing_and_distance (env : GeoEnv) (control_mode : ControlMode)
    (current_loc : Location) (v : VehicleState) (ns : NavStatus) : NavStatus :=
  if v.location_valid = false ∨ control_mode = ControlMode.SERVO_TEST then
    ns
  else
    let ns1 :=
      if control_mode ≠ ControlMode.SCAN ∧ ns.manual_control_yaw = false then
        { ns with
            bearing :=
              env.get_bearing_cd current_loc v.location_estimate * (1 / 100) }
      else ns
    let ns2 := { ns1 with
        distance := env.get_distance current_loc v.location_estimate }
    if control_mode ≠ ControlMode.SCAN ∧ ns.manual_control_pitch = false then
      { ns2 with
          pitch := env.degrees_of
            (env.atan2 ns2.altitude_difference ns2.distance) }
    else ns2

/-- Tracker::update_tracking, the 50 Hz tick: run the estimator, the tracker
position filter and the calculator; then return early when the startup delay
has not yet passed, or when the safety switch is disarmed.  The per-mode
dispatch targets (update_auto, update_manual, update_scan, update_servo_test,
disarm_servos, update_initialising) are strategies outside this state model;
the returned Bool records whether the tick reached the mode dispatch. -/
def update_tracking (env : GeoEnv) (cfg : Config) (now_us now_ms : ℕ)
    (fix : GpsFix) (safety_disarmed : Bool) (st : TrackerState) :
    TrackerState × Bool :=
  let v := update_vehicle_pos_estimate env now_us st.vehicle
  let p := update_tracker_position fix st.current_loc st.old_loc
  let ns := update_bearing_and_distance env st.control_mode p.1 v st.nav_status
  let st1 := { st with
      vehicle := v, current_loc := p.1, old_loc := p.2, nav_status := ns }
  if 0 < cfg.startup_delay ∧
      ((now_ms - st1.start_time_ms : ℕ) : ℚ) < cfg.startup_delay * 1000 then
    (st1, false)
  else if safety_disarmed = true then
    (st1, false)
  else
    (st1, true)

/-- Tracker::tracking_update_gps_alt: when the vehicle location is valid,
set the altitude difference to (vehicle altitude - tracker current altitude)
divided by 100 (centimeters to meters). -/
def tracking_update_gps_alt (v : VehicleState) (current_loc : Location)
    (ns : NavStatus) : NavStatus :=
  if v.location_valid = true then
    { ns with
        altitude_difference := (v.location.alt - current_loc.alt) / 100 }
  else ns

/-- The fields of a MAVLink GLOBAL_POSITION_INT message used by the ingest
handler (wire integers: lat and lon scaled degrees, alt in millimeters, hdg
in centidegrees, vx and vy in cm/s). -/
structure GlobalPositionIntMsg where
  lat : ℤ
  lon : ℤ
  alt : ℤ
  hdg : ℤ
  vx : ℤ
  vy : ℤ
deriving DecidableEq

/-- Tracker::tracking_update_position: overwrite the last-known vehicle
location (alt converted from millimeters to centimeters by C integer
division), heading (centidegrees to degrees), ground speed
(pythagorous2 of vx and vy, cm/s to m/s) and both timestamps; in
GPS-altitude mode (alt_source = 1) also run tracking_update_gps_alt. -/
def tracking_update_position (env : GeoEnv) (cfg : Config)
    (now_us now_ms : ℕ) (msg : GlobalPositionIntMsg) (st : TrackerState) :
    TrackerState :=
  let v := { st.vehicle with
      location :=
        { lat := (msg.lat : ℚ)
        , lng := (msg.lon : ℚ)
        , alt := ((Int.tdiv msg.alt 10 : ℤ) : ℚ) }
      heading := (msg.hdg : ℚ) * (1 / 100)
      ground_speed := env.hypot (msg.vx : ℚ) (msg.vy : ℚ) * (1 / 100)
      last_update_us := now_us
      last_update_ms := now_ms }
  let st1 := { st with vehicle := v }
  if cfg.alt_source = 1 then
    { st1 with
        nav_status :=
          tracking_update_gps_alt st1.vehicle st1.current_loc st1.nav_status }
  else st1

/-- Tracker::tracking_update_pressure: in barometric mode (alt_source = 0)
compute the differential altitude from local and aircraft pressure; when it
is a number, set altitude_difference to it plus the persistent offset (a NaN
sample is discarded); then, if a calibration is pending, set the offset to
the negation of the current altitude difference, zero the difference, and
clear the pending flag. -/
def tracking_update_pressure (env : GeoEnv) (cfg : Config)
    (local_pressure press_abs : ℚ) (ns : NavStatus) : NavStatus :=
  if cfg.alt_source ≠ 0 then ns
  else
    let aircraft_pressure := press_abs * 100
    let ns1 :=
      match env.get_altitude_difference local_pressure aircraft_pressure with
      | some alt_diff =>
          { ns with altitude_difference := alt_diff + ns.altitude_offset }
      | none => ns
    if ns1.need_altitude_calibration = true then
      { ns1 with
          altitude_offset := -ns1.altitude_difference
        , altitude_difference := 0
        , need_altitude_calibration := false }
    else ns1

/-- Tracker::tracking_manual_control: write x to bearing and y to pitch
unconditionally, zero the distance, and raise each manual-override flag
exactly when that axis does not carry the 0x7FFF sentinel. -/
def tracking_manual_control (x y : ℤ) (ns : NavStatus) : NavStatus :=
  { ns with
      bearing := (x : ℚ)
    , pitch := (y : ℚ)
    , distance := 0
    , manual_control_yaw := decide (x ≠ 0x7FFF)
    , manual_control_pitch := decide (y ≠ 0x7FFF) }

/-- Tracker::update_initialising: command a fixed 45 degree pitch (the servo
write itself is an external effect); when the attitude-reference pitch lies
strictly between 40 and 50 degrees, record the band-entry time in the global
delay_timer if it is still zero, and switch to AUTO unless a positive startup
delay is configured and less than that many seconds have elapsed since
delay_timer. -/
def update_initialising (cfg : Config) (now_ms : ℕ) (ahrs_pitch_deg : ℚ)
    (st : TrackerState) : TrackerState :=
  let st1 := { st with nav_status := { st.nav_status with pitch := 45 } }
  if ahrs_pitch_deg < 50 ∧ 40 < ahrs_pitch_deg then
    let t := if st1.delay_timer = 0 then now_ms else st1.delay_timer
    let st2 := { st1 with delay_timer := t }
    if 0 < cfg.startup_delay ∧
        ((now_ms - t : ℕ) : ℚ) < cfg.startup_delay * 1000 then
      st2
    else
      { st2 with control_mode := ControlMode.AUTO }
  else st1

/-- Run update_initialising over a list of (millisecond clock, attitude
pitch) samples, in order. -/
def run_initialising (cfg : Config) :
    List (ℕ × ℚ) → TrackerState → TrackerState
  | [], st => st
  | (t, p) :: rest, st =>
      run_initialising cfg rest (update_initialising cfg t p st)

/-! ## Concrete sample values used by witnesses and counterexamples -/

/-- A concrete geometry environment instantiating all abstract primitives
with constant-zero functions (and a constantly-NaN differential altitude). -/
def env0 : GeoEnv :=
  { cosd := fun _ => 0
  , sind := fun _ => 0
  , get_bearing_cd := fun _ _ => 0
  , get_distance := fun _ _ => 0
  , atan2 := fun _ _ => 0
  , degrees_of := fun _ => 0
  , get_altitude_difference := fun _ _ => none
  , hypot := fun _ _ => 0 }

/-- The zero location (also the bootstrap sentinel). -/
def loc0 : Location := { lat := 0, lng := 0, alt := 0 }

/-- A zeroed navigation status record. -/
def ns0 : NavStatus :=
  { bearing := 0, distance := 0, pitch := 0, altitude_difference := 0
  , altitude_offset := 0, manual_control_yaw := false
  , manual_control_pitch := false, need_altitude_calibration := false }

/-- A sample vehicle state whose last telemetry update was at time zero. -/
def v0 : VehicleState :=
  { location := { lat := 10, lng := 20, alt := 100 }
  , heading := 90, ground_speed := 10
  , location_estimate := loc0, location_valid := false
  , last_update_us := 0, last_update_ms := 0 }

/-- A sample tracker state in INITIALISING mode with a cleared delay timer. -/
def stInit : TrackerState :=
  { vehicle := v0, current_loc := loc0, old_loc := loc0, nav_status := ns0
  , control_mode := ControlMode.INITIALISING, start_time_ms := 0
  , delay_timer := 0 }

/-- A configuration with a 10 second startup delay, barometric altitude. -/
def cfg10 : Config := { startup_delay := 10, alt_source := 0, pitch_trim := 0 }

/-- A configuration with zero startup delay, barometric altitude. -/
def cfgZ : Config := { startup_delay := 0, alt_source := 0, pitch_trim := 0 }

/-- A configuration with zero startup delay, GPS altitude source. -/
def cfgGps : Config := { startup_delay := 0, alt_source := 1, pitch_trim := 0 }

/-- A GPS reading with no fix. -/
def fix0 : GpsFix := { status := 0, location := loc0 }

/-! ## Theorems -/

theorem location_update_zero (env : GeoEnv) (loc : Location) (b : ℚ) :
    location_update env loc b 0 = loc := by
  simp [location_update]

/-- Claim C1: on each estimator tick, when the elapsed time dt since the last
telemetry update is strictly under 5 seconds, the location estimate equals
the last-known location advanced along the last-known heading by exactly
ground_speed * dt and location_valid is set true (so at dt = 0 the estimate
equals the last-known location); when dt is at least 5 seconds,
location_valid is set false regardless of its prior value and the stale
estimate is left unchanged. -/
theorem C1_vehicle_pos_estimate (env : GeoEnv) (now_us : ℕ)
    (v : VehicleState) :
    (elapsed_sec now_us v.last_update_us < TRACKING_TIMEOUT_SEC →
      (update_vehicle_pos_estimate env now_us v).location_estimate =
        location_update env v.location v.heading
          (v.ground_speed * elapsed_sec now_us v.last_update_us) ∧
      (update_vehicle_pos_estimate env now_us v).location_valid = true) ∧
    (elapsed_sec now_us v.last_update_us = 0 →
      (update_vehicle_pos_estimate env now_us v).location_estimate =
        v.location) ∧
    (TRACKING_TIMEOUT_SEC ≤ elapsed_sec now_us v.last_update_us →
      (update_vehicle_pos_estimate env now_us v).location_valid = false ∧
      (update_vehicle_pos_estimate env now_us v).location_estimate =
        v.location_estimate) := by
  refine ⟨fun h => ?_, fun h => ?_, fun h => ?_⟩
  · rw [update_vehicle_pos_estimate, if_pos h]
    exact ⟨rfl, rfl⟩
  · have h5 : elapsed_sec now_us v.last_update_us < TRACKING_TIMEOUT_SEC := by
      rw [h]; norm_num [TRACKING_TIMEOUT_SEC]
    rw [update_vehicle_pos_estimate, if_pos h5]
    show location_update env v.location v.heading
      (v.ground_speed * elapsed_sec now_us v.last_update_us) = v.location
    rw [h, mul_zero, location_update_zero]
  · have h5 : ¬ elapsed_sec now_us v.last_update_us < TRACKING_TIMEOUT_SEC :=
      not_lt.mpr h
    rw [update_vehicle_pos_estimate, if_neg h5]
    exact ⟨rfl, rfl⟩

/-- Witness for C1, at dt = 0 (fresh telemetry) and dt = 10 s (lost). -/
theorem C1_vehicle_pos_estimate_witness :
    ((update_vehicle_pos_estimate env0 0 v0).location_valid = true ∧
     (update_vehicle_pos_estimate env0 0 v0).location_estimate = v0.location) ∧
    ((update_vehicle_pos_estimate env0 10000000 v0).location_valid = false ∧
     (update_vehicle_pos_estimate env0 10000000 v0).location_estimate =
       v0.location_estimate) :=
  ⟨⟨((C1_vehicle_pos_estimate env0 0 v0).1
      (by norm_num [elapsed_sec, v0, TRACKING_TIMEOUT_SEC])).2,
    (C1_vehicle_pos_estimate env0 0 v0).2.1
      (by norm_num [elapsed_sec, v0])⟩,
   (C1_vehicle_pos_estimate env0 10000000 v0).2.2
      (by norm_num [elapsed_sec, v0, TRACKING_TIMEOUT_SEC])⟩

/-- Claim C2 exhibit: with a 10 second startup delay, the pitch enters the
(40, 50) band at t = 1000 ms and leaves it at t = 2000 ms, after which the
settle timer still holds 1000 (it is never reset to zero on leaving the
band) and the mode is still INITIALISING; on re-entering the band at
t = 20000 ms the mode switches to AUTO immediately, although the pitch has
not remained continuously inside the band for the 10 second delay since
re-entry.  This refutes the claimed timer reset and shows the transition
firing without a full continuous settle period. -/
theorem C2_initialising_no_timer_reset :
    (run_initialising cfg10 [(1000, 45), (2000, 0)] stInit).delay_timer =
      1000 ∧
    (run_initialising cfg10 [(1000, 45), (2000, 0)] stInit).control_mode =
      ControlMode.INITIALISING ∧
    (run_initialising cfg10 [(1000, 45), (2000, 0), (20000, 45)]
        stInit).control_mode = ControlMode.AUTO := by
  norm_num [run_initialising, update_initialising, cfg10, stInit, ns0]

/-- Claim C3: with an adequate GPS fix, the first fix after bootstrap (the
previous smoothed location exactly the zero sentinel) sets both the current
and the previous smoothed location to the raw fix with no blending; on every
subsequent fix each axis satisfies exactly new = 0.95 * old + 0.05 * raw and
the result is stored as both the new current and the new previous
location. -/
theorem C3_tracker_position_filter (fix : GpsFix) (cur old : Location)
    (h : GPS_OK_FIX_2D ≤ fix.status) :
    ((old.alt = 0 ∧ old.lat = 0 ∧ old.lng = 0) →
      update_tracker_position fix cur old = (fix.location, fix.location)) ∧
    (¬ (old.alt = 0 ∧ old.lat = 0 ∧ old.lng = 0) →
      (update_tracker_position fix cur old).1 =
        { lat := (95 / 100 : ℚ) * old.lat + (5 / 100 : ℚ) * fix.location.lat
        , lng := (95 / 100 : ℚ) * old.lng + (5 / 100 : ℚ) * fix.location.lng
        , alt :=
            (95 / 100 : ℚ) * old.alt + (5 / 100 : ℚ) * fix.location.alt } ∧
      (update_tracker_position fix cur old).2 =
        (update_tracker_position fix cur old).1) := by
  have hx : ∀ x : ℚ, (95 / 100 : ℚ) * x + (5 / 100 : ℚ) * x = x := by
    intro x; ring
  constructor
  · intro hz
    simp [update_tracker_position, h, hz, hx]
  · intro hz
    simp [update_tracker_position, h, hz]

/-- A GPS reading with a 3D fix at a nonzero location. -/
def fixA : GpsFix :=
  { status := 3, location := { lat := 1000, lng := 2000, alt := 300 } }

/-- A nonzero previous smoothed location. -/
def oldA : Location := { lat := 2000, lng := 4000, alt := 100 }

/-- Witness for C3: a bootstrap fix and a subsequent blended fix. -/
theorem C3_tracker_position_filter_witness :
    update_tracker_position fixA loc0 loc0 = (fixA.location, fixA.location) ∧
    ((update_tracker_position fixA loc0 oldA).1 =
      { lat := (95 / 100 : ℚ) * oldA.lat + (5 / 100 : ℚ) * fixA.location.lat
      , lng := (95 / 100 : ℚ) * oldA.lng + (5 / 100 : ℚ) * fixA.location.lng
      , alt :=
          (95 / 100 : ℚ) * oldA.alt + (5 / 100 : ℚ) * fixA.location.alt } ∧
     (update_tracker_position fixA loc0 oldA).2 =
       (update_tracker_position fixA loc0 oldA).1) :=
  ⟨(C3_tracker_position_filter fixA loc0 loc0 (by decide)).1 (by simp [loc0]),
   (C3_tracker_position_filter fixA loc0 oldA (by decide)).2
     (by norm_num [oldA])⟩

/-- A tracker state for the C4 counterexample: valid fresh telemetry with
vehicle altitude 100 cm, tracker current altitude 0, but a stale
altitude_difference of 999. -/
def stC4 : TrackerState :=
  { vehicle :=
      { location := { lat := 0, lng := 0, alt := 100 }
      , heading := 0, ground_speed := 0
      , location_estimate := loc0, location_valid := false
      , last_update_us := 0, last_update_ms := 0 }
  , current_loc := loc0
  , old_loc := { lat := 1, lng := 1, alt := 1 }
  , nav_status := { ns0 with altitude_difference := 999 }
  , control_mode := ControlMode.AUTO
  , start_time_ms := 0, delay_timer := 0 }

/-- Counterexample to claim C4 as stated: in GPS-altitude mode
(alt_source = 1), a 50 Hz tick on which the vehicle position estimate is
valid leaves altitude_difference at its stale value 999 instead of setting it
to (vehicle altitude - tracker current altitude) / 100 = 1: the tick
orchestrator never invokes the GPS-altitude fusion, which runs only from the
position-telemetry ingest handler. -/
theorem C4_counterexample :
    cfgGps.alt_source = 1 ∧
    (update_tracking env0 cfgGps 0 0 fix0 true stC4).1.vehicle.location_valid
      = true ∧
    ((update_tracking env0 cfgGps 0 0 fix0 true stC4).1.vehicle.location.alt -
        (update_tracking env0 cfgGps 0 0 fix0 true stC4).1.current_loc.alt) /
        100 = 1 ∧
    (update_tracking env0 cfgGps 0 0 fix0 true
        stC4).1.nav_status.altitude_difference = 999 ∧
    (999 : ℚ) ≠ 1 := by
  norm_num [update_tracking, update_vehicle_pos_estimate,
    update_tracker_position, update_bearing_and_distance, elapsed_sec,
    location_update, TRACKING_TIMEOUT_SEC, GPS_OK_FIX_2D, env0, cfgGps, fix0,
    stC4, ns0, loc0]

/-- Claim C4 amended: in GPS-altitude mode (alt_source = 1) the altitude
difference is updated on each position-telemetry ingest rather than on each
tick: ingesting a position message while the stored vehicle position estimate
is valid sets altitude_difference to (new vehicle altitude - tracker current
altitude) / 100 (centimeters to meters), with no calibration offset applied
and every other navigation-status field unchanged; while the estimate is
invalid the navigation status is left unchanged. -/
theorem C4_gps_alt_on_ingest (env : GeoEnv) (cfg : Config)
    (now_us now_ms : ℕ) (msg : GlobalPositionIntMsg) (st : TrackerState)
    (h1 : cfg.alt_source = 1) :
    (st.vehicle.location_valid = true →
      (tracking_update_position env cfg now_us now_ms msg st).nav_status =
        { st.nav_status with
            altitude_difference :=
              (((Int.tdiv msg.alt 10 : ℤ) : ℚ) - st.current_loc.alt) / 100 }) ∧
    (st.vehicle.location_valid = false →
      (tracking_update_position env cfg now_us now_ms msg st).nav_status =
        st.nav_status) := by
  constructor <;> intro hv <;>
    simp [tracking_update_position, tracking_update_gps_alt, h1, hv]

/-- A position message with altitude 250 mm. -/
def msgA : GlobalPositionIntMsg :=
  { lat := 5, lon := 6, alt := 250, hdg := 9000, vx := 3, vy := 4 }

/-- The C4 state with a valid estimate and tracker altitude 5 cm. -/
def stC4v : TrackerState :=
  { stC4 with
      vehicle := { stC4.vehicle with location_valid := true }
    , current_loc := { lat := 0, lng := 0, alt := 5 } }

/-- Witness for the amended C4 at a concrete ingest. -/
theorem C4_gps_alt_on_ingest_witness :
    (tracking_update_position env0 cfgGps 7 8 msgA stC4v).nav_status =
      { stC4v.nav_status with
          altitude_difference :=
            (((Int.tdiv msgA.alt 10 : ℤ) : ℚ) - stC4v.current_loc.alt) /
              100 } :=
  (C4_gps_alt_on_ingest env0 cfgGps 7 8 msgA stC4v rfl).1 rfl

/-- Claim C5: whenever the vehicle position is invalid or the active mode is
SERVO_TEST, a calculator tick is a no-op: the whole NavStatus record is
unchanged by update_bearing_and_distance. -/
theorem C5_calculator_gate (env : GeoEnv) (mode : ControlMode)
    (cur : Location) (v : VehicleState) (ns : NavStatus)
    (h : v.location_valid = false ∨ mode = ControlMode.SERVO_TEST) :
    update_bearing_and_distance env mode cur v ns = ns := by
  unfold update_bearing_and_distance
  rw [if_pos h]

/-- Witness for C5 in SERVO_TEST mode and for an invalid position. -/
theorem C5_calculator_gate_witness :
    update_bearing_and_distance env0 ControlMode.SERVO_TEST loc0 v0 ns0 =
      ns0 ∧
    update_bearing_and_distance env0 ControlMode.AUTO loc0 v0 ns0 = ns0 :=
  ⟨C5_calculator_gate env0 ControlMode.SERVO_TEST loc0 v0 ns0 (Or.inr rfl),
   C5_calculator_gate env0 ControlMode.AUTO loc0 v0 ns0 (Or.inl rfl)⟩

/-- Claim C6: on a calculator tick with a valid vehicle position and mode
other than SERVO_TEST, the distance is unconditionally set to the (geodesic)
distance from the tracker current position to the vehicle location estimate;
the bearing is set to the geodesic bearing in degrees (centidegrees times
1/100) unless the mode is SCAN or the manual yaw override is active, in which
case it is untouched; the pitch is set to degrees of
atan2(altitude difference, distance) unless the mode is SCAN or the manual
pitch override is active, in which case it is untouched. -/
theorem C6_calculator_updates (env : GeoEnv) (mode : ControlMode)
    (cur : Location) (v : VehicleState) (ns : NavStatus)
    (hv : v.location_valid = true) (hm : mode ≠ ControlMode.SERVO_TEST) :
    ((update_bearing_and_distance env mode cur v ns).distance =
      env.get_distance cur v.location_estimate) ∧
    (mode ≠ ControlMode.SCAN → ns.manual_control_yaw = false →
      (update_bearing_and_distance env mode cur v ns).bearing =
        env.get_bearing_cd cur v.location_estimate * (1 / 100)) ∧
    (mode = ControlMode.SCAN ∨ ns.manual_control_yaw = true →
      (update_bearing_and_distance env mode cur v ns).bearing = ns.bearing) ∧
    (mode ≠ ControlMode.SCAN → ns.manual_control_pitch = false →
      (update_bearing_and_distance env mode cur v ns).pitch =
        env.degrees_of (env.atan2 ns.altitude_difference
          (env.get_distance cur v.location_estimate))) ∧
    (mode = ControlMode.SCAN ∨ ns.manual_control_pitch = true →
      (update_bearing_and_distance env mode cur v ns).pitch = ns.pitch) := by
  obtain ⟨b, dis, pit, ad, ao, my, mp, nc⟩ := ns
  cases mode <;> try (exact absurd rfl hm)
  all_goals cases my <;> cases mp <;>
    refine ⟨?_, fun h1 h2 => ?_, fun h1 => ?_, fun h1 h2 => ?_,
      fun h1 => ?_⟩ <;>
      simp_all [update_bearing_and_distance]

/-- A vehicle state with a valid estimate. -/
def vValid : VehicleState :=
  { v0 with
      location_valid := true
    , location_estimate := { lat := 7, lng := 8, alt := 9 } }

/-- Witness for C6: mode AUTO (bearing, distance and pitch all written) and
mode SCAN (bearing and pitch untouched). -/
theorem C6_calculator_updates_witness :
    ((update_bearing_and_distance env0 ControlMode.AUTO loc0 vValid
        ns0).distance = env0.get_distance loc0 vValid.location_estimate) ∧
    ((update_bearing_and_distance env0 ControlMode.AUTO loc0 vValid
        ns0).bearing =
      env0.get_bearing_cd loc0 vValid.location_estimate * (1 / 100)) ∧
    ((update_bearing_and_distance env0 ControlMode.AUTO loc0 vValid
        ns0).pitch =
      env0.degrees_of (env0.atan2 ns0.altitude_difference
        (env0.get_distance loc0 vValid.location_estimate))) ∧
    ((update_bearing_and_distance env0 ControlMode.SCAN loc0 vValid
        ns0).bearing = ns0.bearing) ∧
    ((update_bearing_and_distance env0 ControlMode.SCAN loc0 vValid
        ns0).pitch = ns0.pitch) :=
  ⟨(C6_calculator_updates env0 ControlMode.AUTO loc0 vValid ns0 rfl
      (by decide)).1,
   (C6_calculator_updates env0 ControlMode.AUTO loc0 vValid ns0 rfl
      (by decide)).2.1 (by decide) rfl,
   (C6_calculator_updates env0 ControlMode.AUTO loc0 vValid ns0 rfl
      (by decide)).2.2.2.1 (by decide) rfl,
   (C6_calculator_updates env0 ControlMode.SCAN loc0 vValid ns0 rfl
      (by decide)).2.2.1 (Or.inl rfl),
   (C6_calculator_updates env0 ControlMode.SCAN loc0 vValid ns0 rfl
      (by decide)).2.2.2.2 (Or.inl rfl)⟩

/-- Claim C7: in barometric mode, on each aircraft-pressure sample, a NaN
differential altitude is discarded (altitude_difference keeps its prior
value through the fusion step) while a numeric one sets altitude_difference
to the computed difference plus the persistent offset; then, if a
calibration request is pending, the offset becomes the negation of the
current altitude_difference, altitude_difference is reset to 0 and the
pending flag is cleared. -/
theorem C7_pressure_fusion (env : GeoEnv) (cfg : Config) (lp pa : ℚ)
    (ns : NavStatus) (h : cfg.alt_source = 0) :
    (ns.need_altitude_calibration = false →
      tracking_update_pressure env cfg lp pa ns =
        { ns with
            altitude_difference :=
              match env.get_altitude_difference lp (pa * 100) with
              | some d => d + ns.altitude_offset
              | none => ns.altitude_difference }) ∧
    (ns.need_altitude_calibration = true →
      tracking_update_pressure env cfg lp pa ns =
        { ns with
            altitude_offset :=
              -(match env.get_altitude_difference lp (pa * 100) with
                | some d => d + ns.altitude_offset
                | none => ns.altitude_difference)
          , altitude_difference := 0
          , need_altitude_calibration := false }) := by
  obtain ⟨b, dis, pit, ad, ao, my, mp, nc⟩ := ns
  have h0 : ¬ cfg.alt_source ≠ 0 := by simp [h]
  constructor <;> intro hc <;> subst hc <;>
    rcases he : env.get_altitude_difference lp (pa * 100) with _ | d <;>
      simp [tracking_update_pressure, h0, he]

/-- A navigation status with altitude_difference 12 and a pending
calibration. -/
def nsCal : NavStatus :=
  { ns0 with altitude_difference := 12, need_altitude_calibration := true }

/-- Witness for C7: a NaN sample while a calibration is pending with
altitude_difference 12 yields offset -12, difference 0, flag cleared. -/
theorem C7_pressure_fusion_witness :
    (tracking_update_pressure env0 cfgZ 0 0 nsCal).altitude_offset = -12 ∧
    (tracking_update_pressure env0 cfgZ 0 0 nsCal).altitude_difference = 0 ∧
    (tracking_update_pressure env0 cfgZ 0 0
        nsCal).need_altitude_calibration = false := by
  rw [(C7_pressure_fusion env0 cfgZ 0 0 nsCal rfl).2 rfl]
  simp [env0, nsCal, ns0]

/-- Claim C8: ingesting a manual-control sample (x, y) sets distance to 0 and
the per-axis override flags by the sentinel rule: manual_control_yaw is true
exactly when x differs from 0x7FFF and manual_control_pitch is true exactly
when y differs from 0x7FFF; in particular x = 0x7FFF, y = 100 gives yaw
override false, pitch override true, distance 0. -/
theorem C8_manual_control_flags :
    (∀ (x y : ℤ) (ns : NavStatus),
      (tracking_manual_control x y ns).distance = 0 ∧
      ((tracking_manual_control x y ns).manual_control_yaw = true ↔
        x ≠ 0x7FFF) ∧
      ((tracking_manual_control x y ns).manual_control_pitch = true ↔
        y ≠ 0x7FFF)) ∧
    (∀ ns : NavStatus,
      (tracking_manual_control 0x7FFF 100 ns).manual_control_yaw = false ∧
      (tracking_manual_control 0x7FFF 100 ns).manual_control_pitch = true ∧
      (tracking_manual_control 0x7FFF 100 ns).distance = 0) := by
  constructor
  · intro x y ns
    refine ⟨rfl, ?_, ?_⟩ <;> simp [tracking_manual_control]
  · intro ns
    refine ⟨?_, ?_, rfl⟩ <;> simp [tracking_manual_control]

/-- Claim C9: the manual-control handler overwrites bearing with x and pitch
with y unconditionally, even when an axis carries the 0x7FFF sentinel: a
sentinel-valued axis stores the raw value 32767 in that command field while
its override flag is false. -/
theorem C9_manual_control_overwrites :
    (∀ (x y : ℤ) (ns : NavStatus),
      (tracking_manual_control x y ns).bearing = (x : ℚ) ∧
      (tracking_manual_control x y ns).pitch = (y : ℚ)) ∧
    (∀ ns : NavStatus,
      (tracking_manual_control 0x7FFF 0x7FFF ns).bearing = 32767 ∧
      (tracking_manual_control 0x7FFF 0x7FFF ns).pitch = 32767 ∧
      (tracking_manual_control 0x7FFF 0x7FFF ns).manual_control_yaw =
        false ∧
      (tracking_manual_control 0x7FFF 0x7FFF ns).manual_control_pitch =
        false) := by
  refine ⟨fun x y ns => ⟨rfl, rfl⟩, fun ns => ⟨?_, ?_, ?_, ?_⟩⟩ <;>
    simp [tracking_manual_control]

/-- Claim C10: with a configured startup delay of exactly 0, the startup
delay gate in the tick orchestrator never withholds actuation (with the
safety switch armed, mode dispatch is reached on every tick, including the
very first), and in INITIALISING the transition to AUTO fires on the first
tick on which the attitude pitch lies inside the (40, 50) degree band, with
no settle duration required. -/
theorem C10_zero_startup_delay :
    (∀ (env : GeoEnv) (cfg : Config) (now_us now_ms : ℕ) (fix : GpsFix)
        (st : TrackerState), cfg.startup_delay = 0 →
      (update_tracking env cfg now_us now_ms fix false st).2 = true) ∧
    (∀ (cfg : Config) (now_ms : ℕ) (p : ℚ) (st : TrackerState),
        cfg.startup_delay = 0 → 40 < p → p < 50 →
      (update_initialising cfg now_ms p st).control_mode =
        ControlMode.AUTO) := by
  constructor
  · intro env cfg now_us now_ms fix st h
    simp [update_tracking, h]
  · intro cfg now_ms p st h h1 h2
    simp [update_initialising, h, h1, h2]

/-- Witness for C10: a first tick at time 0 reaches dispatch, and a first
in-band INITIALISING tick switches to AUTO, both with zero delay. -/
theorem C10_zero_startup_delay_witness :
    (update_tracking env0 cfgZ 0 0 fix0 false stInit).2 = true ∧
    (update_initialising cfgZ 0 45 stInit).control_mode =
      ControlMode.AUTO :=
  ⟨C10_zero_startup_delay.1 env0 cfgZ 0 0 fix0 stInit rfl,
   C10_zero_startup_delay.2 cfgZ 0 45 stInit rfl (by norm_num)
     (by norm_num)⟩
